import Mathlib

/-!
Shallow embedding of the Mswipe payment flow of the CMV donation backend:
the callback verifier and status mapper of `services/mswipeService.js`, and
the initiate / callback / status / verify operations of
`controllers/mswipeController.js`.  External effects (HTTP responses from
the processor, generated identifiers, the current time, library functions
such as `validator.isEmail`) are passed in as explicit parameters; the
Mongo collection of donations is a `List Donation` and `document.save()`
is an in-place replacement of the matched record.
-/

namespace CMV

/-- Payment status of a donation: the authoritative `paymentStatus` field
(enum `PENDING`, `SUCCESS`, `FAILED` in `models/Donation`). -/
inductive PaymentStatus where
  | PENDING
  | SUCCESS
  | FAILED
deriving DecidableEq, Repr

/-- JavaScript truthiness of an optional string field: `undefined`, `null`
and the empty string are falsy. -/
def strTruthy : Option String → Bool
  | none => false
  | some s => !s.isEmpty

/-- JavaScript truthiness of an optional numeric timestamp: `null` and `0`
are falsy. -/
def natTruthy : Option Nat → Bool
  | none => false
  | some n => n != 0

/-- Model of JavaScript `toLowerCase` (character-wise lowering, written
over the character list so it evaluates by reduction). -/
def jsToLower (s : String) : String :=
  ⟨s.data.map Char.toLower⟩

/-- Model of JavaScript `trim` (strip leading and trailing whitespace,
written over the character list so it evaluates by reduction). -/
def jsTrim (s : String) : String :=
  ⟨((s.data.dropWhile Char.isWhitespace).reverse.dropWhile Char.isWhitespace).reverse⟩

/-- JavaScript number as produced by `parseFloat`: a rational value, or NaN
for an unparseable non-empty string. -/
inductive JSNum where
  | num (q : Rat)
  | nan
deriving DecidableEq, Repr

/-- JavaScript truthiness of an optional number: `null`, `0` and NaN are
falsy. -/
def numTruthy : Option JSNum → Bool
  | none => false
  | some (.num q) => q != 0
  | some .nan => false

/-- JavaScript `a || b` on optional string values (falsy `a` falls back to
`b`). -/
def jsOr (a b : Option String) : Option String :=
  if strTruthy a then a else b

/-- Mswipe BackPosting callback payload, with the fields destructured by
`mswipeService.verifyCallback`.  String fields are `Option String`
(`none` = absent); `TranAmount` is already the `parseFloat` image of the
raw field (`none` = absent or empty string, `.nan` = unparseable). -/
structure CallbackData where
  IPG_ID : Option String := none
  ME_InvNo : Option String := none
  TRAN_STATUS : Option String := none
  TranAmount : Option JSNum := none
  RRN : Option String := none
  CardType : Option String := none
  CardNumber : Option String := none
  RC : Option String := none
  RC_DESC : Option String := none
  TxnDateTime : Option String := none
  MerID : Option String := none
  TermID : Option String := none
  EX_NOTES1 : Option String := none
  EX_NOTES2 : Option String := none
  EX_NOTES3 : Option String := none
  EX_NOTES4 : Option String := none
  EX_NOTES5 : Option String := none
deriving DecidableEq, Repr

/-- Result of `mswipeService.verifyCallback` in its `valid: true` branch. -/
structure Verification where
  orderId : Option String
  ipgId : Option String
  status : PaymentStatus
  transactionRef : Option String
  amount : Option JSNum
  cardType : Option String
  cardNumber : Option String
  responseCode : Option String
  responseDesc : Option String
  dateTime : Option String
  merchantId : Option String
  terminalId : Option String
  extraNotes : List (Option String)
  rawData : CallbackData
deriving DecidableEq, Repr

/-- Mapping of the `TRAN_STATUS` string in `verifyCallback`: default
`FAILED`; `approved` (case-insensitively) gives `SUCCESS`; `pending`
gives `PENDING`. -/
def callbackStatusOf (cb : CallbackData) : PaymentStatus :=
  if strTruthy cb.TRAN_STATUS && (jsToLower (cb.TRAN_STATUS.getD "") == "approved") then
    PaymentStatus.SUCCESS
  else if strTruthy cb.TRAN_STATUS && (jsToLower (cb.TRAN_STATUS.getD "") == "pending") then
    PaymentStatus.PENDING
  else
    PaymentStatus.FAILED

/-- Verification record built by `verifyCallback` when the payload carries
at least one of `ME_InvNo` / `IPG_ID`. -/
def verificationOf (cb : CallbackData) : Verification where
  orderId := cb.ME_InvNo
  ipgId := cb.IPG_ID
  status := callbackStatusOf cb
  transactionRef := jsOr cb.RRN cb.IPG_ID
  amount := cb.TranAmount
  cardType := cb.CardType
  cardNumber := cb.CardNumber
  responseCode := cb.RC
  responseDesc := cb.RC_DESC
  dateTime := cb.TxnDateTime
  merchantId := cb.MerID
  terminalId := cb.TermID
  extraNotes := [cb.EX_NOTES1, cb.EX_NOTES2, cb.EX_NOTES3, cb.EX_NOTES4, cb.EX_NOTES5]
  rawData := cb

/-- Model of `mswipeService.verifyCallback`: reject the payload when both
`ME_InvNo` and `IPG_ID` are falsy, otherwise extract the verification
record. -/
def verifyCallback (cb : CallbackData) : Except String Verification :=
  if !strTruthy cb.ME_InvNo && !strTruthy cb.IPG_ID then
    .error "Missing order/invoice ID in callback"
  else
    .ok (verificationOf cb)

/-- Raw `mswipeResponse` blob stored by `createOrder` on success
(audit copy of the link-creation response). -/
structure OrderRaw where
  txn_id : Option String := none
  responsecode : Option String := none
  responsemessage : Option String := none
  messageContent : Option String := none
  extraNotes : List (Option String) := []
deriving DecidableEq, Repr

/-- Callback audit record merged into `mswipePaymentResponse.callback` by
`handleCallback` (built from the verification record plus the raw
`TRAN_STATUS`). -/
structure CallbackRecord where
  ipgId : Option String
  transactionRef : Option String
  cardType : Option String
  cardNumber : Option String
  responseCode : Option String
  responseDesc : Option String
  dateTime : Option String
  merchantId : Option String
  terminalId : Option String
  extraNotes : List (Option String)
  rawStatus : Option String
deriving DecidableEq, Repr

/-- Mapped result data of `mswipeService.checkTransactionStatus` on
success. -/
structure StatusData where
  ipgId : Option String := none
  amount : Option JSNum := none
  custCode : Option String := none
  merchantId : Option String := none
  terminalId : Option String := none
  status : PaymentStatus := .FAILED
  statusCode : Option Int := none
  statusDesc : Option String := none
  orderId : Option String := none
  paymentId : Option String := none
  transactionDateTime : Option String := none
  cardNumber : Option String := none
  cardType : Option String := none
  paymentType : Option String := none
  createdOn : Option String := none
deriving DecidableEq, Repr

/-- Audit blob `mswipePaymentResponse` (a Mixed object): each writer sets
its own key by object spread and keeps the other keys. -/
structure PaymentResponseBlob where
  initOrder : Option OrderRaw := none
  callback : Option CallbackRecord := none
  statusCheck : Option StatusData := none
deriving DecidableEq, Repr

/-- Donation document (the fields of `models/Donation` relevant to the
payment flow).  The pre-save hook sets `updatedAt` on every save, so every
persisted mutation stamps the supplied current time. -/
structure Donation where
  donationRef : String
  fullName : String := ""
  email : String := ""
  phoneNumber : String := ""
  amount : Rat
  paymentGateway : String := "mswipe"
  paymentStatus : PaymentStatus := .PENDING
  status : String := "pending"
  mswipeOrderId : String
  mswipeTransactionRef : Option String := none
  mswipeIpgId : Option String := none
  mswipeTransId : Option String := none
  mswipePaymentResponse : PaymentResponseBlob := {}
  createdAt : Nat := 0
  updatedAt : Nat := 0
deriving DecidableEq, Repr

/-- Persist a mutated document: replace the first store entry matched by
`p` with its image under `g` (a Mongoose `findOne` followed by
`document.save()`). -/
def updateFirstWith (p : Donation → Bool) (g : Donation → Donation) :
    List Donation → List Donation
  | [] => []
  | d :: ds => if p d then g d :: ds else d :: updateFirstWith p g ds

/-- Environment configuration read by the callback handler:
`FRONTEND_PAYMENT_RESULT_URL`. -/
structure CallbackConfig where
  frontendPaymentResultUrl : Option String := none
deriving DecidableEq, Repr

/-- HTTP-level response of `handleCallback`. -/
inductive CallbackResponse where
  | invalidCallback
  | notFound
  | alreadyProcessedRedirect (status : PaymentStatus) (ref : String)
  | alreadyProcessedJson (status : PaymentStatus)
  | amountMismatch
  | resultRedirect (status : PaymentStatus) (ref : String) (amount : Rat)
  | resultJson (success : Bool) (status : PaymentStatus) (ref : String)
deriving DecidableEq, Repr

/-- HTTP status code carried by each callback response (redirects are
302). -/
def CallbackResponse.httpStatus : CallbackResponse → Nat
  | .invalidCallback => 400
  | .notFound => 404
  | .alreadyProcessedRedirect _ _ => 302
  | .alreadyProcessedJson _ => 200
  | .amountMismatch => 400
  | .resultRedirect _ _ _ => 302
  | .resultJson _ _ _ => 200

/-- Whether a callback response is a redirect. -/
def CallbackResponse.isRedirect : CallbackResponse → Bool
  | .alreadyProcessedRedirect _ _ => true
  | .resultRedirect _ _ _ => true
  | _ => false

/-- Outcome of one `handleCallback` request: the HTTP response, the donation
store after the request, and whether a confirmation email was attempted. -/
structure CallbackOutcome where
  response : CallbackResponse
  store : List Donation
  emailSent : Bool
deriving DecidableEq, Repr

/-- Guard of the amount check in `handleCallback`: the declared amount is
truthy and differs from the stored amount. -/
def amountMismatchGuard (amt : Option JSNum) (stored : Rat) : Bool :=
  match amt with
  | some (.num q) => q != 0 && q != stored
  | _ => false

/-- Mutation applied on amount mismatch: force `FAILED` (only the two
status fields are written; the save hook stamps `updatedAt`). -/
def failFromMismatch (now : Nat) (d : Donation) : Donation :=
  { d with paymentStatus := .FAILED, status := "failed", updatedAt := now }

/-- Mutation applied on the settle path of `handleCallback`: adopt the
verified status, mirror the legacy field, record the processor references
and merge the callback audit record. -/
def settleFromCallback (now : Nat) (cb : CallbackData) (v : Verification)
    (d : Donation) : Donation :=
  { d with
    paymentStatus := v.status
    status := if v.status = .SUCCESS then "completed" else "failed"
    mswipeTransactionRef := v.transactionRef
    mswipeIpgId := v.ipgId
    mswipePaymentResponse :=
      { d.mswipePaymentResponse with
        callback := some {
          ipgId := v.ipgId
          transactionRef := v.transactionRef
          cardType := v.cardType
          cardNumber := v.cardNumber
          responseCode := v.responseCode
          responseDesc := v.responseDesc
          dateTime := v.dateTime
          merchantId := v.merchantId
          terminalId := v.terminalId
          extraNotes := v.extraNotes
          rawStatus := cb.TRAN_STATUS } }
    updatedAt := now }

/-- Response of the replay-guard branch: redirect to the configured result
page with the already-settled status, else a 200 JSON body. -/
def replayResponse (cfg : CallbackConfig) (d : Donation) : CallbackResponse :=
  match cfg.frontendPaymentResultUrl with
  | some _ => .alreadyProcessedRedirect d.paymentStatus d.donationRef
  | none => .alreadyProcessedJson d.paymentStatus

/-- Response of the settle path: redirect with status, reference and amount,
else a 200 JSON body. -/
def settledResponse (cfg : CallbackConfig) (d : Donation) : CallbackResponse :=
  match cfg.frontendPaymentResultUrl with
  | some _ => .resultRedirect d.paymentStatus d.donationRef d.amount
  | none => .resultJson (d.paymentStatus == .SUCCESS) d.paymentStatus d.donationRef

/-- Filter used by the handler's `Donation.findOne({mswipeOrderId: oid})`:
a present extracted order id matches on `mswipeOrderId`; an absent one is
an `undefined` filter value, which Mongoose strips during query casting,
so the query degenerates to `findOne({})` and every stored donation
matches (the first one is returned). -/
def orderIdFilter (oid : Option String) (d : Donation) : Bool :=
  match oid with
  | some o => d.mswipeOrderId == o
  | none => true

theorem orderIdFilter_some (o : String) :
    orderIdFilter (some o) = fun d => d.mswipeOrderId == o := rfl

/-- Model of `mswipeController.handleCallback`: verify the payload, look the
donation up by the extracted order id (an absent id is stripped from the
filter, so the lookup then returns the first stored donation — see
`orderIdFilter`), apply the replay guard, the amount check and the settle
transition. -/
def handleCallback (cfg : CallbackConfig) (now : Nat) (cb : CallbackData)
    (store : List Donation) : CallbackOutcome :=
  match verifyCallback cb with
  | .error _ => ⟨.invalidCallback, store, false⟩
  | .ok v =>
    match store.find? (orderIdFilter v.orderId) with
    | none => ⟨.notFound, store, false⟩
    | some donation =>
      if donation.paymentStatus ≠ .PENDING then
        ⟨replayResponse cfg donation, store, false⟩
      else if amountMismatchGuard v.amount donation.amount then
        ⟨.amountMismatch,
          updateFirstWith (orderIdFilter v.orderId) (failFromMismatch now) store,
          false⟩
      else
        ⟨settledResponse cfg (settleFromCallback now cb v donation),
          updateFirstWith (orderIdFilter v.orderId) (settleFromCallback now cb v) store,
          (settleFromCallback now cb v donation).paymentStatus == .SUCCESS⟩

/-- Single transaction row of the raw `getPBLTransactionDetails` response
(`data.Data[0]`).  `Payment_Status` is the processor numeric status code:
2 = pending, 1 = success, 0 = failed. -/
structure TxnData where
  IPG_ID : Option String := none
  Amount : Option JSNum := none
  Cust_Code : Option String := none
  MID : Option String := none
  TID : Option String := none
  Payment_Status : Option Int := none
  Payment_Desc : Option String := none
  Order_Id : Option String := none
  Payment_Id : Option String := none
  TrxDateTime : Option String := none
  CardNumber : Option String := none
  CardType : Option String := none
  PaymentType : Option String := none
  Created_On : Option String := none
deriving DecidableEq, Repr

/-- Raw response of `POST /ipg/api/getPBLTransactionDetails`: the processor
success flag, the row array, and the failure message. -/
structure StatusApiResponse where
  Status : Bool
  Data : List TxnData := []
  ResponseMessage : Option String := none
deriving DecidableEq, Repr

/-- Mapping of one raw transaction row in `checkTransactionStatus`: the
numeric `Payment_Status` becomes a `PaymentStatus` (1 = SUCCESS,
2 = PENDING, anything else FAILED) and the remaining fields are copied. -/
def statusDataOf (txn : TxnData) : StatusData where
  ipgId := txn.IPG_ID
  amount := txn.Amount
  custCode := txn.Cust_Code
  merchantId := txn.MID
  terminalId := txn.TID
  status :=
    if txn.Payment_Status == some 1 then PaymentStatus.SUCCESS
    else if txn.Payment_Status == some 2 then PaymentStatus.PENDING
    else PaymentStatus.FAILED
  statusCode := txn.Payment_Status
  statusDesc := txn.Payment_Desc
  orderId := txn.Order_Id
  paymentId := txn.Payment_Id
  transactionDateTime := txn.TrxDateTime
  cardNumber := txn.CardNumber
  cardType := txn.CardType
  paymentType := txn.PaymentType
  createdOn := txn.Created_On

/-- Model of `mswipeService.checkTransactionStatus`: reject a falsy
`transId` without calling out; `resp = none` models a failed HTTP call;
otherwise map the first transaction row, turning the numeric
`Payment_Status` into a `PaymentStatus` (1 = SUCCESS, 2 = PENDING,
anything else FAILED). -/
def checkTransactionStatus (transId : Option String)
    (resp : Option StatusApiResponse) : Except String StatusData :=
  if !strTruthy transId then
    .error "Transaction ID is required"
  else
    match resp with
    | none => .error "Status check failed"
    | some r =>
      if r.Status then
        match r.Data.head? with
        | none => .error "No transaction data returned"
        | some txn => .ok (statusDataOf txn)
      else
        .error (r.ResponseMessage.getD "Status check failed")

/-- HTTP-level response of `verifyTransaction`. -/
inductive VerifyResponse where
  | missingRef
  | notFound
  | unverifiable (currentStatus : PaymentStatus)
  | checkFailed (currentStatus : PaymentStatus)
  | ok (ref : String) (status : PaymentStatus) (mswipeStatus : StatusData)
      (amount : Rat) (transactionRef : Option String)
deriving DecidableEq, Repr

/-- Outcome of one `verifyTransaction` request; `processorCalled` records
whether the status-query HTTP call was made. -/
structure VerifyOutcome where
  response : VerifyResponse
  store : List Donation
  processorCalled : Bool
  emailSent : Bool
deriving DecidableEq, Repr

/-- Mutation applied by `verifyTransaction` when the stored donation is
still `PENDING` and the queried status is settled. -/
def applyStatusCheck (now : Nat) (data : StatusData) (d : Donation) : Donation :=
  { d with
    paymentStatus := data.status
    status := if data.status = .SUCCESS then "completed" else "failed"
    mswipeTransactionRef := jsOr data.paymentId data.ipgId
    mswipeIpgId := data.ipgId
    mswipePaymentResponse := { d.mswipePaymentResponse with statusCheck := some data }
    updatedAt := now }

/-- Model of `mswipeController.verifyTransaction`: look the donation up by
`donationRef`; fail without a processor call when the stored
`mswipeTransId` is falsy; otherwise query the processor and, when the
donation is still `PENDING` and the queried status is not, apply the
settle-and-notify mutation. -/
def verifyTransaction (now : Nat) (donationRef : String)
    (resp : Option StatusApiResponse) (store : List Donation) : VerifyOutcome :=
  if donationRef.isEmpty then
    ⟨.missingRef, store, false, false⟩
  else
    match store.find? (fun d => d.donationRef == donationRef) with
    | none => ⟨.notFound, store, false, false⟩
    | some donation =>
      if !strTruthy donation.mswipeTransId then
        ⟨.unverifiable donation.paymentStatus, store, false, false⟩
      else
        match checkTransactionStatus donation.mswipeTransId resp with
        | .error _ => ⟨.checkFailed donation.paymentStatus, store, true, false⟩
        | .ok data =>
          if donation.paymentStatus = .PENDING ∧ data.status ≠ .PENDING then
            let d2 := applyStatusCheck now data donation
            ⟨.ok d2.donationRef d2.paymentStatus data d2.amount d2.mswipeTransactionRef,
              updateFirstWith (fun d => d.donationRef == donationRef)
                (applyStatusCheck now data) store,
              true, data.status == .SUCCESS⟩
          else
            ⟨.ok donation.donationRef donation.paymentStatus data donation.amount
                donation.mswipeTransactionRef,
              store, true, false⟩

/-- Raw response of `POST /ipg/api/CreatePBLAuthToken`: the status flag, the
token, the decoded JWT `exp` claim in milliseconds (`none` when the token
payload cannot be parsed), and the failure message. -/
structure TokenApiResponse where
  statusOk : Bool
  token : String := ""
  parsedExp : Option Nat := none
  msg : Option String := none
deriving DecidableEq, Repr

/-- Token-cache state of the singleton `MswipeService`
(`cachedToken` / `tokenExpiry`, both initially null). -/
structure TokenState where
  cachedToken : Option String := none
  tokenExpiry : Option Nat := none
deriving DecidableEq, Repr

/-- Safety margin before token expiry: one hour in milliseconds. -/
def tokenBufferMs : Nat := 60 * 60 * 1000

/-- Default token lifetime when the JWT expiry cannot be parsed: 25 days in
milliseconds. -/
def defaultTokenLifeMs : Nat := 25 * 24 * 60 * 60 * 1000

/-- Guard of the cached-token fast path in `generateToken`: both cache
fields truthy and the expiry more than the buffer beyond now. -/
def tokenCacheFresh (st : TokenState) (now : Nat) : Bool :=
  strTruthy st.cachedToken && natTruthy st.tokenExpiry
    && decide (st.tokenExpiry.getD 0 > now + tokenBufferMs)

/-- View of an `Except` value as a sum, to derive decidable equality. -/
def exceptToSum {ε α : Type} : Except ε α → ε ⊕ α
  | .error e => .inl e
  | .ok a => .inr a

instance exceptDecEq {ε α : Type} [DecidableEq ε] [DecidableEq α] :
    DecidableEq (Except ε α) := fun x y =>
  decidable_of_iff (exceptToSum x = exceptToSum y)
    (by cases x <;> cases y <;> simp [exceptToSum])

/-- Outcome of one `generateToken` call: the result (token or error
message), the cache state afterwards, and whether the token endpoint was
called. -/
structure TokenOutcome where
  result : Except String String
  state : TokenState
  processorCalled : Bool
deriving DecidableEq, Repr

/-- Model of `mswipeService.generateToken`: return the cached token when the
cache is fresh; otherwise call the token endpoint (`resp = none` models a
failed HTTP call), and on a successful response cache the token with the
parsed expiry, defaulting to 25 days from now. -/
def generateToken (st : TokenState) (now : Nat) (resp : Option TokenApiResponse) :
    TokenOutcome :=
  if tokenCacheFresh st now then
    ⟨.ok (st.cachedToken.getD ""), st, false⟩
  else
    match resp with
    | none => ⟨.error "Token generation failed", st, true⟩
    | some r =>
      if r.statusOk then
        ⟨.ok r.token,
          ⟨some r.token, some (r.parsedExp.getD (now + defaultTokenLifeMs))⟩,
          true⟩
      else
        ⟨.error (r.msg.getD "Token generation failed"), st, true⟩

/-- Request body of `initiatePayment` (sanitized and validated fields). -/
structure InitiateInput where
  fullName : String := ""
  email : String := ""
  phoneNumber : String := ""
  amount : Rat := 0
  purpose : String := ""
deriving DecidableEq, Repr

/-- Fast-fail validation list of `initiatePayment` (the `errors` array);
`isEmail` stands for the external `validator.isEmail`. -/
def initiateErrors (isEmail : String → Bool) (input : InitiateInput) : List String :=
  (if (jsTrim input.fullName).isEmpty then ["fullName is required"] else []) ++
  (if !isEmail input.email then ["Valid email is required"] else []) ++
  (if !(input.phoneNumber.length == 10 && input.phoneNumber.toList.all Char.isDigit) then
    ["Valid 10-digit phone number is required"] else []) ++
  (if input.amount ≤ 0 then ["Amount must be greater than 0"] else [])

/-- Success payload of `mswipeService.createOrder` as consumed by the
controller. -/
structure OrderData where
  paymentUrl : String
  txnId : Option String := none
  transId : Option String := none
  mswipeResponse : OrderRaw := {}
deriving DecidableEq, Repr

/-- HTTP-level response of `initiatePayment`. -/
inductive InitiateResponse where
  | serviceUnavailable
  | validationErrors (errors : List String)
  | initFailed (donationRef : String)
  | ok (paymentUrl : String) (donationRef : String) (orderId : String)
deriving DecidableEq, Repr

/-- Outcome of one `initiatePayment` request. -/
structure InitiateOutcome where
  response : InitiateResponse
  store : List Donation
deriving DecidableEq, Repr

/-- Model of `sanitizeInput`: trim, then the external `validator.escape`
(passed in as `escape`). -/
def sanitizeInput (escape : String → String) (s : String) : String :=
  escape (jsTrim s)

/-- Pending donation record persisted by `initiatePayment` before the
processor is contacted. -/
def pendingDonationOf (escape : String → String) (input : InitiateInput)
    (donationRef mswipeOrderId : String) (now : Nat) : Donation where
  donationRef := donationRef
  fullName := sanitizeInput escape input.fullName
  email := sanitizeInput escape input.email
  phoneNumber := sanitizeInput escape input.phoneNumber
  amount := input.amount
  paymentGateway := "mswipe"
  paymentStatus := .PENDING
  status := "pending"
  mswipeOrderId := mswipeOrderId
  createdAt := now
  updatedAt := now

/-- Donation left behind when link creation fails during initiation: the
just-created pending record re-saved as `FAILED`. -/
def failedInitDonation (escape : String → String) (input : InitiateInput)
    (donationRef mswipeOrderId : String) (now : Nat) : Donation :=
  { pendingDonationOf escape input donationRef mswipeOrderId now with
      paymentStatus := .FAILED
      status := "failed"
      updatedAt := now }

/-- Donation stored on successful link creation: the pending record with
the processor linkage (`mswipeIpgId`, `mswipeTransId`, raw response). -/
def linkedInitDonation (escape : String → String) (input : InitiateInput)
    (donationRef mswipeOrderId : String) (now : Nat) (data : OrderData) : Donation :=
  { pendingDonationOf escape input donationRef mswipeOrderId now with
      mswipePaymentResponse :=
        { (pendingDonationOf escape input donationRef mswipeOrderId now).mswipePaymentResponse
            with initOrder := some data.mswipeResponse }
      mswipeIpgId := data.txnId
      mswipeTransId := data.transId
      updatedAt := now }

/-- Model of `mswipeController.initiatePayment`: validate, persist a
`PENDING` donation, then ask the processor for a payment link
(`orderResult` is the `createOrder` result).  On link-creation failure the
donation is re-saved as `FAILED` and the 500 response carries the
`donationRef`; on success the processor linkage is stored and the payment
URL returned.  The generated identifiers and the clock are parameters. -/
def initiatePayment (configured : Bool) (isEmail : String → Bool)
    (escape : String → String) (input : InitiateInput)
    (donationRef mswipeOrderId : String) (now : Nat)
    (orderResult : Except String OrderData) (store : List Donation) :
    InitiateOutcome :=
  if !configured then
    ⟨.serviceUnavailable, store⟩
  else if initiateErrors isEmail input ≠ [] then
    ⟨.validationErrors (initiateErrors isEmail input), store⟩
  else
    match orderResult with
    | .error _ =>
      ⟨.initFailed donationRef,
        store ++ [failedInitDonation escape input donationRef mswipeOrderId now]⟩
    | .ok data =>
      ⟨.ok data.paymentUrl donationRef mswipeOrderId,
        store ++ [linkedInitDonation escape input donationRef mswipeOrderId now data]⟩

/-! Helper lemmas about the store update and the callback verifier. -/

theorem forall2_self {R : Donation → Donation → Prop} (h : ∀ x, R x x) :
    ∀ xs : List Donation, List.Forall₂ R xs xs
  | [] => .nil
  | x :: xs => .cons (h x) (forall2_self h xs)

theorem forall2_updateFirstWith {R : Donation → Donation → Prop}
    {p : Donation → Bool} {g : Donation → Donation} (hrefl : ∀ x, R x x) :
    ∀ (xs : List Donation) (d : Donation), xs.find? p = some d → R d (g d) →
      List.Forall₂ R xs (updateFirstWith p g xs) := by
  intro xs
  induction xs with
  | nil => intro d hfind; simp [List.find?] at hfind
  | cons x xs ih =>
    intro d hfind hRd
    by_cases hx : p x = true
    · rw [List.find?_cons_of_pos _ hx] at hfind
      obtain rfl : x = d := by injection hfind
      simp only [updateFirstWith, if_pos hx]
      exact .cons hRd (forall2_self hrefl xs)
    · rw [List.find?_cons_of_neg _ hx] at hfind
      simp only [updateFirstWith, if_neg hx]
      exact .cons (hrefl x) (ih d hfind hRd)

theorem verifyCallback_valid {cb : CallbackData}
    (h : strTruthy cb.ME_InvNo = true ∨ strTruthy cb.IPG_ID = true) :
    verifyCallback cb = .ok (verificationOf cb) := by
  have hne : ¬((!strTruthy cb.ME_InvNo && !strTruthy cb.IPG_ID) = true) := by
    rcases h with h | h <;> simp [h]
  unfold verifyCallback
  rw [if_neg hne]

theorem verifyCallback_invalid {cb : CallbackData}
    (h1 : strTruthy cb.ME_InvNo = false) (h2 : strTruthy cb.IPG_ID = false) :
    verifyCallback cb = .error "Missing order/invoice ID in callback" := by
  unfold verifyCallback
  rw [if_pos (by simp [h1, h2])]

/-- Case analysis of the store written by `handleCallback`: either untouched,
or the first donation matched by the lookup filter (which, on an absent
extracted order id, matches every stored donation) was `PENDING` and is
rewritten by the mismatch mutation or the settle mutation. -/
theorem handleCallback_store_cases (cfg : CallbackConfig) (now : Nat)
    (cb : CallbackData) (store : List Donation) :
    (handleCallback cfg now cb store).store = store ∨
    (∃ d, store.find? (orderIdFilter cb.ME_InvNo) = some d ∧
      d.paymentStatus = .PENDING ∧
      ((handleCallback cfg now cb store).store =
          updateFirstWith (orderIdFilter cb.ME_InvNo) (failFromMismatch now) store ∨
        (handleCallback cfg now cb store).store =
          updateFirstWith (orderIdFilter cb.ME_InvNo)
            (settleFromCallback now cb (verificationOf cb)) store)) := by
  unfold handleCallback
  split
  · exact Or.inl rfl
  · rename_i v hv
    have hvv : v = verificationOf cb := by
      unfold verifyCallback at hv
      split at hv
      · cases hv
      · injection hv with h; exact h.symm
    subst hvv
    split
    · exact Or.inl rfl
    · rename_i donation hfind
      split
      · exact Or.inl rfl
      · rename_i hpend
        have hp : donation.paymentStatus = .PENDING := not_ne_iff.mp hpend
        split
        · exact Or.inr ⟨donation, hfind, hp, Or.inl rfl⟩
        · exact Or.inr ⟨donation, hfind, hp, Or.inr rfl⟩

/-- Case analysis of the store written by `verifyTransaction`: either
untouched, or the donation was `PENDING`, the queried status settled, and
the record is rewritten by the status-check mutation. -/
theorem verifyTransaction_store_cases (now : Nat) (ref : String)
    (resp : Option StatusApiResponse) (store : List Donation) :
    (verifyTransaction now ref resp store).store = store ∨
    (∃ d data, store.find? (fun x => x.donationRef == ref) = some d ∧
      d.paymentStatus = .PENDING ∧ data.status ≠ .PENDING ∧
      (verifyTransaction now ref resp store).store =
        updateFirstWith (fun x => x.donationRef == ref) (applyStatusCheck now data) store) := by
  unfold verifyTransaction
  split
  · exact Or.inl rfl
  · split
    · exact Or.inl rfl
    · rename_i donation hfind
      split
      · exact Or.inl rfl
      · split
        · exact Or.inl rfl
        · rename_i data hchk
          split
          · rename_i hcond
            exact Or.inr ⟨donation, data, hfind, hcond.1, hcond.2, rfl⟩
          · exact Or.inl rfl

theorem verificationOf_orderId (cb : CallbackData) :
    (verificationOf cb).orderId = cb.ME_InvNo := rfl

theorem verificationOf_amount (cb : CallbackData) :
    (verificationOf cb).amount = cb.TranAmount := rfl

theorem verificationOf_status (cb : CallbackData) :
    (verificationOf cb).status = callbackStatusOf cb := rfl

/-- Unfolding of `handleCallback` once the payload is valid and the lookup
by the extracted order id succeeds. -/
theorem handleCallback_found (cfg : CallbackConfig) (now : Nat)
    (cb : CallbackData) (store : List Donation) {oid : String} {d : Donation}
    (hval : strTruthy cb.ME_InvNo = true ∨ strTruthy cb.IPG_ID = true)
    (hME : cb.ME_InvNo = some oid)
    (hfind : store.find? (fun x => x.mswipeOrderId == oid) = some d) :
    handleCallback cfg now cb store =
      if d.paymentStatus ≠ .PENDING then
        ⟨replayResponse cfg d, store, false⟩
      else if amountMismatchGuard cb.TranAmount d.amount then
        ⟨.amountMismatch,
          updateFirstWith (fun x => x.mswipeOrderId == oid) (failFromMismatch now) store,
          false⟩
      else
        ⟨settledResponse cfg (settleFromCallback now cb (verificationOf cb) d),
          updateFirstWith (fun x => x.mswipeOrderId == oid)
            (settleFromCallback now cb (verificationOf cb)) store,
          (settleFromCallback now cb (verificationOf cb) d).paymentStatus == .SUCCESS⟩ := by
  unfold handleCallback
  rw [verifyCallback_valid hval]
  simp only [verificationOf_orderId, verificationOf_amount, hME, orderIdFilter_some, hfind]

/-- Unfolding of `handleCallback` once the payload is valid and the lookup
filter — the extracted order id when present, everything-matches when the
id is absent and stripped from the filter — finds a donation. -/
theorem handleCallback_lookup (cfg : CallbackConfig) (now : Nat)
    (cb : CallbackData) (store : List Donation) {d : Donation}
    (hval : strTruthy cb.ME_InvNo = true ∨ strTruthy cb.IPG_ID = true)
    (hfind : store.find? (orderIdFilter cb.ME_InvNo) = some d) :
    handleCallback cfg now cb store =
      if d.paymentStatus ≠ .PENDING then
        ⟨replayResponse cfg d, store, false⟩
      else if amountMismatchGuard cb.TranAmount d.amount then
        ⟨.amountMismatch,
          updateFirstWith (orderIdFilter cb.ME_InvNo) (failFromMismatch now) store,
          false⟩
      else
        ⟨settledResponse cfg (settleFromCallback now cb (verificationOf cb) d),
          updateFirstWith (orderIdFilter cb.ME_InvNo)
            (settleFromCallback now cb (verificationOf cb)) store,
          (settleFromCallback now cb (verificationOf cb) d).paymentStatus == .SUCCESS⟩ := by
  unfold handleCallback
  rw [verifyCallback_valid hval]
  simp only [verificationOf_orderId, verificationOf_amount, hfind]

/-- Unfolding of `verifyTransaction` once the reference is non-empty and the
lookup succeeds. -/
theorem verifyTransaction_found (now : Nat) (ref : String)
    (resp : Option StatusApiResponse) (store : List Donation) {d : Donation}
    (href : ref.isEmpty = false)
    (hfind : store.find? (fun x => x.donationRef == ref) = some d) :
    verifyTransaction now ref resp store =
      if !strTruthy d.mswipeTransId then
        ⟨.unverifiable d.paymentStatus, store, false, false⟩
      else
        match checkTransactionStatus d.mswipeTransId resp with
        | .error _ => ⟨.checkFailed d.paymentStatus, store, true, false⟩
        | .ok data =>
          if d.paymentStatus = .PENDING ∧ data.status ≠ .PENDING then
            ⟨.ok (applyStatusCheck now data d).donationRef
                (applyStatusCheck now data d).paymentStatus data
                (applyStatusCheck now data d).amount
                (applyStatusCheck now data d).mswipeTransactionRef,
              updateFirstWith (fun x => x.donationRef == ref)
                (applyStatusCheck now data) store,
              true, data.status == .SUCCESS⟩
          else
            ⟨.ok d.donationRef d.paymentStatus data d.amount d.mswipeTransactionRef,
              store, true, false⟩ := by
  unfold verifyTransaction
  rw [if_neg (by simp [href])]
  simp only [hfind]

theorem statusStep_of_pending (x : PaymentStatus) :
    x = .PENDING ∨ (x = .SUCCESS ∨ x = .FAILED) := by
  cases x
  · exact Or.inl rfl
  · exact Or.inr (Or.inl rfl)
  · exact Or.inr (Or.inr rfl)

/-- Allowed life-cycle step of `paymentStatus`: unchanged, or settled from
`PENDING` to `SUCCESS` or to `FAILED`. -/
def StatusStep (a b : PaymentStatus) : Prop :=
  a = b ∨ (a = .PENDING ∧ (b = .SUCCESS ∨ b = .FAILED))

/-- C1: for every donation, `paymentStatus` transitions only PENDING to
SUCCESS or PENDING to FAILED, and at most once.  Every status change made
by `handleCallback` or `verifyTransaction` starts from `PENDING` — this
covers the lookup with an absent extracted order id, which Mongoose strips
from the filter so the first stored donation is found and processed; when
the donation found by either operation is no longer `PENDING`, the store
is left untouched, and a duplicate callback is answered with the
already-settled status (redirect or 200 body), not an error. -/
theorem paymentStatus_settles_at_most_once
    (cfg : CallbackConfig) (now : Nat) (cb : CallbackData) (store : List Donation)
    (ref : String) (resp : Option StatusApiResponse) :
    List.Forall₂ (fun d d' => StatusStep d.paymentStatus d'.paymentStatus)
      store (handleCallback cfg now cb store).store
  ∧ List.Forall₂ (fun d d' => StatusStep d.paymentStatus d'.paymentStatus)
      store (verifyTransaction now ref resp store).store
  ∧ (∀ d, (strTruthy cb.ME_InvNo = true ∨ strTruthy cb.IPG_ID = true) →
      store.find? (orderIdFilter cb.ME_InvNo) = some d →
      d.paymentStatus ≠ .PENDING →
      (handleCallback cfg now cb store).store = store ∧
      (handleCallback cfg now cb store).response = replayResponse cfg d)
  ∧ (∀ d, store.find? (fun x => x.donationRef == ref) = some d →
      d.paymentStatus ≠ .PENDING →
      (verifyTransaction now ref resp store).store = store) := by
  refine ⟨?_, ?_, ?_, ?_⟩
  · rcases handleCallback_store_cases cfg now cb store with h | ⟨d, hfind, hp, h | h⟩
    · rw [h]; exact forall2_self (fun x => Or.inl rfl) store
    · rw [h]
      exact forall2_updateFirstWith (fun x => Or.inl rfl) store d hfind
        (Or.inr ⟨hp, Or.inr rfl⟩)
    · rw [h]
      refine forall2_updateFirstWith (fun x => Or.inl rfl) store d hfind ?_
      rw [StatusStep, hp]
      have := statusStep_of_pending (settleFromCallback now cb (verificationOf cb) d).paymentStatus
      rcases this with h1 | h2
      · exact Or.inl h1.symm
      · exact Or.inr ⟨rfl, h2⟩
  · rcases verifyTransaction_store_cases now ref resp store with h | ⟨d, data, hfind, hp, _, h⟩
    · rw [h]; exact forall2_self (fun x => Or.inl rfl) store
    · rw [h]
      refine forall2_updateFirstWith (fun x => Or.inl rfl) store d hfind ?_
      rw [StatusStep, hp]
      have := statusStep_of_pending (applyStatusCheck now data d).paymentStatus
      rcases this with h1 | h2
      · exact Or.inl h1.symm
      · exact Or.inr ⟨rfl, h2⟩
  · intro d hval hfind hne
    rw [handleCallback_lookup cfg now cb store hval hfind, if_pos hne]
    exact ⟨rfl, rfl⟩
  · intro d hfind hne
    by_cases href : ref.isEmpty = true
    · unfold verifyTransaction
      rw [if_pos href]
    · rw [verifyTransaction_found now ref resp store (Bool.eq_false_iff.mpr href) hfind]
      split
      · rfl
      · split
        · rfl
        · rw [if_neg (fun h => hne h.1)]

/-- Fixture: a pending donation of amount 100 with order id O1. -/
def dPending : Donation := { donationRef := "R1", amount := 100, mswipeOrderId := "O1" }

/-- Fixture: the same donation already settled as SUCCESS. -/
def dSettled : Donation :=
  { dPending with
      paymentStatus := .SUCCESS
      status := "completed"
      mswipeTransactionRef := some "RRN7" }

/-- Fixture: an approved callback for order O1. -/
def cbApproved : CallbackData := { ME_InvNo := some "O1", TRAN_STATUS := some "approved" }

/-- Fixture: an approved callback carrying only the processor id
(`ME_InvNo` absent), so the lookup filter is stripped and the first stored
donation is found. -/
def cbOnlyIpg : CallbackData := { IPG_ID := some "IPG9", TRAN_STATUS := some "approved" }

/-- Witness for C1: a duplicate approved callback (by order id, and also by
the stripped-filter lookup of an id-less payload) and a verify call on an
already settled donation leave the store untouched, and the callbacks are
answered with the already-settled status. -/
theorem paymentStatus_settles_at_most_once_witness :
    (handleCallback {} 9 cbApproved [dSettled]).store = [dSettled] ∧
    (handleCallback {} 9 cbApproved [dSettled]).response = replayResponse {} dSettled ∧
    (handleCallback {} 9 cbOnlyIpg [dSettled]).store = [dSettled] ∧
    (handleCallback {} 9 cbOnlyIpg [dSettled]).response = replayResponse {} dSettled ∧
    (verifyTransaction 9 "R1" none [dSettled]).store = [dSettled] := by
  have h := paymentStatus_settles_at_most_once {} 9 cbApproved [dSettled] "R1" none
  have h' := paymentStatus_settles_at_most_once {} 9 cbOnlyIpg [dSettled] "R1" none
  have h3 := h.2.2.1 dSettled (Or.inl (by decide)) (by decide) (by decide)
  have h3' := h'.2.2.1 dSettled (Or.inr (by decide)) (by decide) (by decide)
  exact ⟨h3.1, h3.2, h3'.1, h3'.2, h.2.2.2 dSettled (by decide) (by decide)⟩

/-- Fixture: an approved callback for order O1 declaring amount 0. -/
def cbZeroAmount : CallbackData :=
  { ME_InvNo := some "O1", TRAN_STATUS := some "approved", TranAmount := some (.num 0) }

/-- Fixture: an approved callback for order O1 declaring amount 50. -/
def cbFifty : CallbackData :=
  { ME_InvNo := some "O1", TRAN_STATUS := some "approved", TranAmount := some (.num 50) }

/-- Fixture: a callback-handler configuration with a frontend result URL. -/
def cfgRedirect : CallbackConfig :=
  { frontendPaymentResultUrl := some "https://cmv.example/result" }

/-- Counterexample to C2 as stated: this callback declares amount 0, the
stored amount is 100 (so the declared amount differs), the donation is
PENDING, yet `handleCallback` settles it as SUCCESS — the amount check is
guarded by JavaScript truthiness of the declared amount, and 0 is falsy,
so the mismatch check is skipped. -/
theorem amount_mismatch_zero_bypass :
    cbZeroAmount.TranAmount = some (.num 0) ∧ dPending.amount = 100 ∧
    dPending.paymentStatus = .PENDING ∧
    (handleCallback {} 7 cbZeroAmount [dPending]).store.map
      (fun d => d.paymentStatus) = [PaymentStatus.SUCCESS] := by
  decide

/-- C2 (amended): for every callback payload whose declared amount is
truthy (parses to a nonzero number) and differs from the stored amount,
`handleCallback` on a PENDING donation rewrites exactly the matched record
with the forced-FAILED mutation — so it settles FAILED, never SUCCESS —
regardless of the status the payload itself reports. -/
theorem amount_mismatch_forces_failed
    (cfg : CallbackConfig) (now : Nat) (cb : CallbackData) (store : List Donation)
    (oid : String) (d : Donation) (q : Rat)
    (hval : strTruthy cb.ME_InvNo = true ∨ strTruthy cb.IPG_ID = true)
    (hME : cb.ME_InvNo = some oid)
    (hfind : store.find? (fun x => x.mswipeOrderId == oid) = some d)
    (hp : d.paymentStatus = .PENDING)
    (hq : cb.TranAmount = some (.num q)) (hq0 : q ≠ 0) (hqd : q ≠ d.amount) :
    (handleCallback cfg now cb store).store =
      updateFirstWith (fun x => x.mswipeOrderId == oid) (failFromMismatch now) store ∧
    (failFromMismatch now d).paymentStatus = .FAILED ∧
    (handleCallback cfg now cb store).response = .amountMismatch := by
  rw [handleCallback_found cfg now cb store hval hME hfind]
  have hguard : amountMismatchGuard cb.TranAmount d.amount = true := by
    rw [hq]; simp [amountMismatchGuard, hq0, hqd]
  rw [if_neg (by simp [hp]), if_pos hguard]
  exact ⟨rfl, rfl, rfl⟩

/-- Witness for C2 (amended): a callback declaring amount 50 against a
stored amount of 100 yields the mismatch error and the forced-FAILED
rewrite. -/
theorem amount_mismatch_forces_failed_witness :
    (handleCallback {} 7 cbFifty [dPending]).store =
      updateFirstWith (fun x => x.mswipeOrderId == "O1") (failFromMismatch 7) [dPending] ∧
    (failFromMismatch 7 dPending).paymentStatus = .FAILED ∧
    (handleCallback {} 7 cbFifty [dPending]).response = .amountMismatch :=
  amount_mismatch_forces_failed {} 7 cbFifty [dPending] "O1" dPending 50
    (Or.inl (by decide)) rfl (by decide) (by decide) rfl (by decide) (by decide)

/-- Counterexample to C3 as stated: on an amount mismatch (stored 100,
declared 50) the callback caller receives the distinct 400 error response
`amountMismatch` — not a success-shaped 200 response and not a redirect —
even when a frontend result URL is configured. -/
theorem amount_mismatch_response_is_error_400 :
    (handleCallback cfgRedirect 7 cbFifty [dPending]).response = .amountMismatch ∧
    (handleCallback cfgRedirect 7 cbFifty [dPending]).response.httpStatus = 400 ∧
    (handleCallback cfgRedirect 7 cbFifty [dPending]).response.isRedirect = false := by
  decide

/-- C3 (amended): when `handleCallback` detects an amount mismatch it
responds to the processor caller with the distinct 400 JSON error
(`Amount verification failed`), never a 200 or redirect success-shaped
response, whatever the configured redirect URL. -/
theorem amount_mismatch_distinct_error_response
    (cfg : CallbackConfig) (now : Nat) (cb : CallbackData) (store : List Donation)
    (oid : String) (d : Donation) (q : Rat)
    (hval : strTruthy cb.ME_InvNo = true ∨ strTruthy cb.IPG_ID = true)
    (hME : cb.ME_InvNo = some oid)
    (hfind : store.find? (fun x => x.mswipeOrderId == oid) = some d)
    (hp : d.paymentStatus = .PENDING)
    (hq : cb.TranAmount = some (.num q)) (hq0 : q ≠ 0) (hqd : q ≠ d.amount) :
    (handleCallback cfg now cb store).response = .amountMismatch ∧
    (handleCallback cfg now cb store).response.httpStatus = 400 ∧
    (handleCallback cfg now cb store).response.isRedirect = false := by
  rw [handleCallback_found cfg now cb store hval hME hfind]
  have hguard : amountMismatchGuard cb.TranAmount d.amount = true := by
    rw [hq]; simp [amountMismatchGuard, hq0, hqd]
  rw [if_neg (by simp [hp]), if_pos hguard]
  exact ⟨rfl, rfl, rfl⟩

/-- Witness for C3 (amended): with a configured redirect URL and a
mismatching declared amount of 50 against stored 250, the response is the
400 mismatch error. -/
theorem amount_mismatch_distinct_error_response_witness :
    (handleCallback cfgRedirect 11 { cbFifty with TRAN_STATUS := some "Approved" }
        [{ dPending with amount := 250 }]).response = .amountMismatch ∧
    (handleCallback cfgRedirect 11 { cbFifty with TRAN_STATUS := some "Approved" }
        [{ dPending with amount := 250 }]).response.httpStatus = 400 ∧
    (handleCallback cfgRedirect 11 { cbFifty with TRAN_STATUS := some "Approved" }
        [{ dPending with amount := 250 }]).response.isRedirect = false :=
  amount_mismatch_distinct_error_response cfgRedirect 11
    { cbFifty with TRAN_STATUS := some "Approved" } [{ dPending with amount := 250 }]
    "O1" { dPending with amount := 250 } 50
    (Or.inl (by decide)) rfl (by decide) (by decide) rfl (by decide) (by decide)

/-- Fixture: a valid initiate request. -/
def inputOk : InitiateInput :=
  { fullName := "Asha", email := "asha@example.com", phoneNumber := "1234567890",
    amount := 100 }

/-- Counterexample to C4 as stated: when link creation fails during
Initiate, the resulting donation has `paymentStatus = FAILED` (not
PENDING) while `mswipeTransactionRef` is still unset, so the biconditional
`transaction reference set iff status not PENDING` fails on a reachable
record. -/
theorem transactionRef_iff_settled_fails_on_initiate :
    (initiatePayment true (fun _ => true) id inputOk "R9" "O9" 5
        (.error "timeout") []).store.map
      (fun d => (d.paymentStatus, d.mswipeTransactionRef)) =
      [(PaymentStatus.FAILED, none)] := by
  decide

/-- C4 (amended): `initiatePayment` never assigns `mswipeTransactionRef`:
every donation in the store after Initiate either was already there or has
the transaction reference unset — in particular the FAILED donation left
by the link-creation failure path has it unset, so the biconditional of C4
does not hold; the reference is only assigned by the settle paths of
`handleCallback` and `verifyTransaction`. -/
theorem initiate_never_sets_transactionRef
    (configured : Bool) (isEmail : String → Bool) (escape : String → String)
    (input : InitiateInput) (donationRef mswipeOrderId : String) (now : Nat)
    (orderResult : Except String OrderData) (store : List Donation) :
    ∀ d ∈ (initiatePayment configured isEmail escape input donationRef
        mswipeOrderId now orderResult store).store,
      d ∈ store ∨ d.mswipeTransactionRef = none := by
  intro d hd
  unfold initiatePayment at hd
  split at hd
  · exact Or.inl hd
  · split at hd
    · exact Or.inl hd
    · split at hd
      · rcases List.mem_append.mp hd with h | h
        · exact Or.inl h
        · obtain rfl := List.mem_singleton.mp h
          exact Or.inr rfl
      · rcases List.mem_append.mp hd with h | h
        · exact Or.inl h
        · obtain rfl := List.mem_singleton.mp h
          exact Or.inr rfl

/-- Fixture: the FAILED donation left by the failing initiate of
`inputOk`. -/
def dInitFailed : Donation := failedInitDonation id inputOk "R9" "O9" 5

/-- Witness for C4 (amended): the donation left by a failing initiate has
no transaction reference. -/
theorem initiate_never_sets_transactionRef_witness :
    dInitFailed ∈ ([] : List Donation) ∨ dInitFailed.mswipeTransactionRef = none :=
  initiate_never_sets_transactionRef true (fun _ => true) id inputOk "R9" "O9" 5
    (.error "timeout") [] dInitFailed (by decide)

theorem handleCallback_invalid (cfg : CallbackConfig) (now : Nat)
    (cb : CallbackData) (store : List Donation)
    (h1 : strTruthy cb.ME_InvNo = false) (h2 : strTruthy cb.IPG_ID = false) :
    handleCallback cfg now cb store = ⟨.invalidCallback, store, false⟩ := by
  unfold handleCallback
  rw [verifyCallback_invalid h1 h2]

theorem handleCallback_notFound (cfg : CallbackConfig) (now : Nat)
    (cb : CallbackData) (store : List Donation)
    (hval : strTruthy cb.ME_InvNo = true ∨ strTruthy cb.IPG_ID = true)
    (hfind : store.find? (orderIdFilter cb.ME_InvNo) = none) :
    handleCallback cfg now cb store = ⟨.notFound, store, false⟩ := by
  unfold handleCallback
  rw [verifyCallback_valid hval]
  simp only [verificationOf_orderId, hfind]

theorem replayResponse_ne_invalid (cfg : CallbackConfig) (d : Donation) :
    replayResponse cfg d ≠ .invalidCallback := by
  unfold replayResponse
  split
  · exact fun h => nomatch h
  · exact fun h => nomatch h

theorem settledResponse_ne_invalid (cfg : CallbackConfig) (d : Donation) :
    settledResponse cfg d ≠ .invalidCallback := by
  unfold settledResponse
  split
  · exact fun h => nomatch h
  · exact fun h => nomatch h

theorem handleCallback_valid_response_ne_invalid (cfg : CallbackConfig)
    (now : Nat) (cb : CallbackData) (store : List Donation)
    (hval : strTruthy cb.ME_InvNo = true ∨ strTruthy cb.IPG_ID = true) :
    (handleCallback cfg now cb store).response ≠ .invalidCallback := by
  cases hfind : store.find? (orderIdFilter cb.ME_InvNo) with
  | none =>
    rw [handleCallback_notFound cfg now cb store hval hfind]
    exact fun h => nomatch h
  | some d =>
    rw [handleCallback_lookup cfg now cb store hval hfind]
    split
    · exact replayResponse_ne_invalid cfg d
    · split
      · exact fun h => nomatch h
      · exact settledResponse_ne_invalid cfg _

/-- C5: `handleCallback` answers with the InvalidCallback 400 error exactly
when the order identifier is entirely absent from the payload (neither
`ME_InvNo` nor `IPG_ID` is present), leaving the store untouched; and when
the payload is valid but the donation lookup by the extracted order
identifier finds nothing, it answers NotFound, also leaving the store
untouched (no donation is created).  The lookup uses the program's filter
semantics: a present `ME_InvNo` matches on `mswipeOrderId`, while an
absent one is stripped from the filter by Mongoose so every stored
donation matches it — NotFound then only arises on an empty collection. -/
theorem invalid_and_notfound_exact
    (cfg : CallbackConfig) (now : Nat) (cb : CallbackData) (store : List Donation) :
    ((handleCallback cfg now cb store).response = .invalidCallback ↔
      (strTruthy cb.ME_InvNo = false ∧ strTruthy cb.IPG_ID = false))
  ∧ ((strTruthy cb.ME_InvNo = false ∧ strTruthy cb.IPG_ID = false) →
      (handleCallback cfg now cb store).store = store)
  ∧ ((strTruthy cb.ME_InvNo = true ∨ strTruthy cb.IPG_ID = true) →
      store.find? (orderIdFilter cb.ME_InvNo) = none →
      (handleCallback cfg now cb store).response = .notFound ∧
      (handleCallback cfg now cb store).store = store) := by
  refine ⟨?_, ?_, ?_⟩
  · cases hm : strTruthy cb.ME_InvNo <;> cases hi : strTruthy cb.IPG_ID
    · rw [handleCallback_invalid cfg now cb store hm hi]
      exact iff_of_true rfl ⟨rfl, rfl⟩
    · exact iff_of_false
        (handleCallback_valid_response_ne_invalid cfg now cb store (Or.inr hi))
        (fun hc => by simp at hc)
    · exact iff_of_false
        (handleCallback_valid_response_ne_invalid cfg now cb store (Or.inl hm))
        (fun hc => by simp at hc)
    · exact iff_of_false
        (handleCallback_valid_response_ne_invalid cfg now cb store (Or.inl hm))
        (fun hc => by simp at hc)
  · exact fun hc => by rw [handleCallback_invalid cfg now cb store hc.1 hc.2]
  · intro hval hfind
    rw [handleCallback_notFound cfg now cb store hval hfind]
    exact ⟨rfl, rfl⟩

/-- Fixture: a callback payload carrying no order identifier at all. -/
def cbNoId : CallbackData := { TRAN_STATUS := some "approved" }

/-- Witness for C5: a payload with neither identifier gets the
InvalidCallback error with the store untouched; a valid payload whose
order id matches nothing gets NotFound with no donation created — and so
does an id-less payload against an empty collection, where the stripped
filter has nothing to return. -/
theorem invalid_and_notfound_exact_witness :
    (handleCallback {} 3 cbNoId [dPending]).response = .invalidCallback ∧
    (handleCallback {} 3 cbNoId [dPending]).store = [dPending] ∧
    (handleCallback {} 3 cbApproved []).response = .notFound ∧
    (handleCallback {} 3 cbApproved []).store = ([] : List Donation) ∧
    (handleCallback {} 3 cbOnlyIpg []).response = .notFound := by
  refine ⟨?_, ?_, ?_, ?_, ?_⟩
  · exact (invalid_and_notfound_exact {} 3 cbNoId [dPending]).1.mpr ⟨by decide, by decide⟩
  · exact (invalid_and_notfound_exact {} 3 cbNoId [dPending]).2.1 ⟨by decide, by decide⟩
  · exact ((invalid_and_notfound_exact {} 3 cbApproved []).2.2 (Or.inl (by decide)) rfl).1
  · exact ((invalid_and_notfound_exact {} 3 cbApproved []).2.2 (Or.inl (by decide)) rfl).2
  · exact ((invalid_and_notfound_exact {} 3 cbOnlyIpg []).2.2 (Or.inr (by decide)) rfl).1

/-- C6: when the stored polling identifier (`mswipeTransId`) was never
captured, `verifyTransaction` fails with the Unverifiable error (carrying
the current status), makes no call to the processor status-query
operation, and leaves the store unchanged. -/
theorem verify_without_token_makes_no_processor_call
    (now : Nat) (ref : String) (resp : Option StatusApiResponse)
    (store : List Donation) (d : Donation)
    (href : ref.isEmpty = false)
    (hfind : store.find? (fun x => x.donationRef == ref) = some d)
    (htok : strTruthy d.mswipeTransId = false) :
    verifyTransaction now ref resp store =
      ⟨.unverifiable d.paymentStatus, store, false, false⟩ := by
  rw [verifyTransaction_found now ref resp store href hfind, if_pos (by simp [htok])]

/-- Witness for C6: the freshly initiated donation has no `mswipeTransId`,
so verify fails Unverifiable without touching the processor or the
store. -/
theorem verify_without_token_makes_no_processor_call_witness :
    verifyTransaction 3 "R1" none [dPending] =
      ⟨.unverifiable .PENDING, [dPending], false, false⟩ :=
  verify_without_token_makes_no_processor_call 3 "R1" none [dPending] dPending
    (by decide) (by decide) (by decide)

theorem mapStatus_spec (c : Option Int) :
    ((if c == some 1 then PaymentStatus.SUCCESS
      else if c == some 2 then PaymentStatus.PENDING
      else PaymentStatus.FAILED) = .SUCCESS ↔ c = some 1) ∧
    ((if c == some 1 then PaymentStatus.SUCCESS
      else if c == some 2 then PaymentStatus.PENDING
      else PaymentStatus.FAILED) = .PENDING ↔ c = some 2) ∧
    ((if c == some 1 then PaymentStatus.SUCCESS
      else if c == some 2 then PaymentStatus.PENDING
      else PaymentStatus.FAILED) = .FAILED ↔ (c ≠ some 1 ∧ c ≠ some 2)) := by
  by_cases h1 : c = some 1
  · subst h1; decide
  · by_cases h2 : c = some 2
    · subst h2; decide
    · have hv : (if c == some 1 then PaymentStatus.SUCCESS
          else if c == some 2 then PaymentStatus.PENDING
          else PaymentStatus.FAILED) = .FAILED := by
        rw [if_neg (by simp [h1]), if_neg (by simp [h2])]
      rw [hv]
      exact ⟨iff_of_false (fun h => nomatch h) h1,
             iff_of_false (fun h => nomatch h) h2,
             iff_of_true rfl ⟨h1, h2⟩⟩

/-- C7: `checkTransactionStatus` maps the numeric processor status code to
exactly one of the three payment statuses: code 2 to PENDING, code 1 to
SUCCESS, and every other code — absent or unrecognized included — to
FAILED. -/
theorem status_code_mapping (tid : String) (txn : TxnData)
    (rest : List TxnData) (msg : Option String)
    (htid : tid.isEmpty = false) :
    checkTransactionStatus (some tid) (some ⟨true, txn :: rest, msg⟩) =
      .ok (statusDataOf txn) ∧
    (statusDataOf txn).statusCode = txn.Payment_Status ∧
    ((statusDataOf txn).status = .SUCCESS ↔ txn.Payment_Status = some 1) ∧
    ((statusDataOf txn).status = .PENDING ↔ txn.Payment_Status = some 2) ∧
    ((statusDataOf txn).status = .FAILED ↔
      (txn.Payment_Status ≠ some 1 ∧ txn.Payment_Status ≠ some 2)) := by
  have hs : (statusDataOf txn).status =
      (if txn.Payment_Status == some 1 then PaymentStatus.SUCCESS
        else if txn.Payment_Status == some 2 then PaymentStatus.PENDING
        else PaymentStatus.FAILED) := rfl
  refine ⟨?_, rfl, ?_, ?_, ?_⟩
  · unfold checkTransactionStatus
    rw [if_neg (by simp [strTruthy, htid])]
    rfl
  · rw [hs]; exact (mapStatus_spec txn.Payment_Status).1
  · rw [hs]; exact (mapStatus_spec txn.Payment_Status).2.1
  · rw [hs]; exact (mapStatus_spec txn.Payment_Status).2.2

/-- Fixture: a raw transaction row with the pending code 2. -/
def txnPending : TxnData := { Payment_Status := some 2 }

/-- Witness for C7: a response with code 2 maps to PENDING (and not to the
other statuses). -/
theorem status_code_mapping_witness :
    checkTransactionStatus (some "T1") (some ⟨true, [txnPending], none⟩) =
      .ok (statusDataOf txnPending) ∧
    (statusDataOf txnPending).statusCode = txnPending.Payment_Status ∧
    ((statusDataOf txnPending).status = .SUCCESS ↔ txnPending.Payment_Status = some 1) ∧
    ((statusDataOf txnPending).status = .PENDING ↔ txnPending.Payment_Status = some 2) ∧
    ((statusDataOf txnPending).status = .FAILED ↔
      (txnPending.Payment_Status ≠ some 1 ∧ txnPending.Payment_Status ≠ some 2)) :=
  status_code_mapping "T1" txnPending [] none (by decide)

theorem strTruthy_some (s : String) : strTruthy (some s) = true ↔ s ≠ "" := by
  constructor
  · intro h hs
    subst hs
    exact absurd h (by decide)
  · intro h
    show (!s.isEmpty) = true
    cases hse : s.isEmpty
    · rfl
    · exact absurd ((String.isEmpty_iff s).mp hse) h

theorem tokenCacheFresh_iff (st : TokenState) (now : Nat) :
    tokenCacheFresh st now = true ↔
      ∃ t e, st.cachedToken = some t ∧ t ≠ "" ∧ st.tokenExpiry = some e ∧
        now + tokenBufferMs < e := by
  rcases st with ⟨tok, exp⟩
  rcases tok with _ | t
  · simp [tokenCacheFresh, strTruthy]
  · rcases exp with _ | e
    · simp [tokenCacheFresh, strTruthy, natTruthy]
    · constructor
      · intro h
        rcases Bool.and_eq_true_iff.mp h with ⟨h12, h3⟩
        rcases Bool.and_eq_true_iff.mp h12 with ⟨h1, h2⟩
        exact ⟨t, e, rfl, (strTruthy_some t).mp h1, rfl, of_decide_eq_true h3⟩
      · rintro ⟨t', e', ht', hne, he', hlt⟩
        have hte : t = t' := Option.some_inj.mp ht'
        have hee : e = e' := Option.some_inj.mp he'
        refine Bool.and_eq_true_iff.mpr
          ⟨Bool.and_eq_true_iff.mpr ⟨?_, ?_⟩, ?_⟩
        · rw [hte]; exact (strTruthy_some t').mpr hne
        · rw [hee]; exact bne_iff_ne.mpr (by omega)
        · rw [hee]; exact decide_eq_true hlt

/-- C8: `generateToken` returns the cached credential with no processor
call exactly when a token is cached and its expiry is more than the
one-hour safety margin in the future; otherwise it calls the token
endpoint and, on a successful response, returns the fresh token and caches
it with the parsed expiry — falling back to the fixed 25-day default
lifetime when the expiry cannot be parsed. -/
theorem generateToken_cache_policy (st : TokenState) (now : Nat)
    (resp : Option TokenApiResponse) :
    ((generateToken st now resp).processorCalled = false ↔
      (∃ t e, st.cachedToken = some t ∧ t ≠ "" ∧ st.tokenExpiry = some e ∧
        now + tokenBufferMs < e))
  ∧ (tokenCacheFresh st now = true →
      generateToken st now resp = ⟨.ok (st.cachedToken.getD ""), st, false⟩)
  ∧ (∀ r, tokenCacheFresh st now = false → resp = some r → r.statusOk = true →
      generateToken st now resp =
        ⟨.ok r.token,
          ⟨some r.token, some (r.parsedExp.getD (now + defaultTokenLifeMs))⟩,
          true⟩) := by
  refine ⟨?_, ?_, ?_⟩
  · rw [← tokenCacheFresh_iff st now]
    by_cases hf : tokenCacheFresh st now = true
    · unfold generateToken
      rw [if_pos hf]
      exact iff_of_true rfl hf
    · have hcalled : (generateToken st now resp).processorCalled = true := by
        unfold generateToken
        rw [if_neg hf]
        cases resp with
        | none => rfl
        | some r =>
          by_cases hr : r.statusOk = true
          · simp [hr]
          · simp [hr]
      exact iff_of_false (by rw [hcalled]; exact fun h => nomatch h) hf
  · intro hf
    unfold generateToken
    rw [if_pos hf]
  · intro r hf hresp hok
    unfold generateToken
    rw [if_neg (by simp [hf]), hresp]
    simp [hok]

/-- Fixture: a cache whose token expires before the safety margin. -/
def stStale : TokenState := { cachedToken := some "tok", tokenExpiry := some 100 }

/-- Fixture: a cache whose token expires far beyond the safety margin. -/
def stFresh : TokenState := { cachedToken := some "tok", tokenExpiry := some 99999999999 }

/-- Fixture: a successful token-endpoint response with unparseable
expiry. -/
def respNewToken : TokenApiResponse := { statusOk := true, token := "newtok" }

/-- Witness for C8: the fresh cache is returned without a processor call;
the stale cache triggers a refresh that stores the new token with the
25-day default expiry. -/
theorem generateToken_cache_policy_witness :
    generateToken stFresh 100 none = ⟨.ok "tok", stFresh, false⟩ ∧
    generateToken stStale 100 (some respNewToken) =
      ⟨.ok "newtok", ⟨some "newtok", some (100 + defaultTokenLifeMs)⟩, true⟩ :=
  ⟨(generateToken_cache_policy stFresh 100 none).2.1 (by decide),
   (generateToken_cache_policy stStale 100 (some respNewToken)).2.2 respNewToken
     (by decide) rfl rfl⟩

/-- C9: when payment-link creation fails during initiate on a validated
request, the just-created donation is kept in the store transitioned to
FAILED (not deleted, not left PENDING, legacy mirror set to failed), and
the error response carries the `donationRef` for support reference. -/
theorem initiate_failure_keeps_failed_donation
    (isEmail : String → Bool) (escape : String → String) (input : InitiateInput)
    (donationRef mswipeOrderId : String) (now : Nat) (msg : String)
    (store : List Donation)
    (hval : initiateErrors isEmail input = []) :
    (initiatePayment true isEmail escape input donationRef mswipeOrderId now
        (.error msg) store).response = .initFailed donationRef ∧
    (initiatePayment true isEmail escape input donationRef mswipeOrderId now
        (.error msg) store).store =
      store ++ [failedInitDonation escape input donationRef mswipeOrderId now] ∧
    (failedInitDonation escape input donationRef mswipeOrderId now).donationRef =
      donationRef ∧
    (failedInitDonation escape input donationRef mswipeOrderId now).paymentStatus =
      .FAILED ∧
    (failedInitDonation escape input donationRef mswipeOrderId now).status =
      "failed" ∧
    failedInitDonation escape input donationRef mswipeOrderId now ∈
      (initiatePayment true isEmail escape input donationRef mswipeOrderId now
        (.error msg) store).store := by
  have h : initiatePayment true isEmail escape input donationRef mswipeOrderId now
      (.error msg) store =
      ⟨.initFailed donationRef,
        store ++ [failedInitDonation escape input donationRef mswipeOrderId now]⟩ := by
    unfold initiatePayment
    rw [if_neg (by decide), if_neg (not_ne_iff.mpr hval)]
  rw [h]
  exact ⟨rfl, rfl, rfl, rfl, rfl,
    List.mem_append_right store (List.mem_singleton_self _)⟩

/-- Witness for C9: a concrete failing initiate leaves the FAILED,
support-referenceable donation in the store. -/
theorem initiate_failure_keeps_failed_donation_witness :
    (initiatePayment true (fun _ => true) id inputOk "R9" "O9" 5
        (.error "timeout") []).response = .initFailed "R9" ∧
    (initiatePayment true (fun _ => true) id inputOk "R9" "O9" 5
        (.error "timeout") []).store = [] ++ [failedInitDonation id inputOk "R9" "O9" 5] ∧
    (failedInitDonation id inputOk "R9" "O9" 5).donationRef = "R9" ∧
    (failedInitDonation id inputOk "R9" "O9" 5).paymentStatus = .FAILED ∧
    (failedInitDonation id inputOk "R9" "O9" 5).status = "failed" ∧
    failedInitDonation id inputOk "R9" "O9" 5 ∈
      (initiatePayment true (fun _ => true) id inputOk "R9" "O9" 5
        (.error "timeout") []).store :=
  initiate_failure_keeps_failed_donation (fun _ => true) id inputOk "R9" "O9" 5
    "timeout" [] (by decide)

/-- C10: the status computed by callback verification is SUCCESS exactly
when the payload transaction-status string lowercases to `approved`
(a missing or unrecognized status defaults to FAILED), `verifyCallback`
propagates that status unchanged, and `handleCallback` can only turn a
donation to SUCCESS when that condition holds. -/
theorem callback_success_requires_approved
    (cfg : CallbackConfig) (now : Nat) (cb : CallbackData) (store : List Donation) :
    (callbackStatusOf cb = .SUCCESS ↔ jsToLower (cb.TRAN_STATUS.getD "") = "approved")
  ∧ ((strTruthy cb.ME_InvNo = true ∨ strTruthy cb.IPG_ID = true) →
      verifyCallback cb = .ok (verificationOf cb) ∧
      (verificationOf cb).status = callbackStatusOf cb)
  ∧ List.Forall₂ (fun d d' => d'.paymentStatus = .SUCCESS →
      d.paymentStatus = .SUCCESS ∨ callbackStatusOf cb = .SUCCESS)
      store (handleCallback cfg now cb store).store := by
  refine ⟨⟨?_, ?_⟩, ?_, ?_⟩
  · intro h
    unfold callbackStatusOf at h
    by_cases hg : (strTruthy cb.TRAN_STATUS
        && (jsToLower (cb.TRAN_STATUS.getD "") == "approved")) = true
    · exact eq_of_beq (Bool.and_eq_true_iff.mp hg).2
    · rw [if_neg hg] at h
      split at h
      · exact nomatch h
      · exact nomatch h
  · intro ha
    have hne : cb.TRAN_STATUS.getD "" ≠ "" := by
      intro h0
      rw [h0] at ha
      exact absurd ha (by decide)
    have hts : strTruthy cb.TRAN_STATUS = true := by
      cases ht : cb.TRAN_STATUS with
      | none => rw [ht] at hne; exact absurd rfl hne
      | some s =>
        rw [ht] at hne
        exact (strTruthy_some s).mpr hne
    unfold callbackStatusOf
    rw [if_pos (Bool.and_eq_true_iff.mpr ⟨hts, beq_iff_eq.mpr ha⟩)]
  · intro hv
    exact ⟨verifyCallback_valid hv, rfl⟩
  · rcases handleCallback_store_cases cfg now cb store with h | ⟨d, hfind, _, h | h⟩
    · rw [h]
      exact forall2_self (fun x hx => Or.inl hx) store
    · rw [h]
      exact forall2_updateFirstWith (fun x hx => Or.inl hx) store d hfind
        (fun hsucc => nomatch hsucc)
    · rw [h]
      exact forall2_updateFirstWith (fun x hx => Or.inl hx) store d hfind
        (fun hsucc => Or.inr hsucc)

/-- Witness for C10: the approved fixture callback verifies to the SUCCESS
status computed by the status mapping. -/
theorem callback_success_requires_approved_witness :
    verifyCallback cbApproved = .ok (verificationOf cbApproved) ∧
    (verificationOf cbApproved).status = callbackStatusOf cbApproved :=
  (callback_success_requires_approved {} 3 cbApproved []).2.1 (Or.inl (by decide))

end CMV
